import Mathlib

/-
Verification of the Multi-Template-Matching pipeline (src/MTM/__init__.py).

The pure, in-repository logic is embedded shallowly:
  * correlation scores are rationals (`Score := ℚ`);
  * a correlation map / image is a list of rows;
  * the external collaborators — skimage.feature.match_template,
    skimage.feature.peak_local_max and the NMS routine — are abstract
    function parameters, exactly at their interface boundary;
  * Python exceptions become an `Except PyErr` result;
  * the dynamically typed `nObjects` argument (int, float, or float("inf"))
    becomes the inductive `NObjArg`.
-/

namespace MTM

/-- Correlation scores and pixel values, modelled as rationals. -/
abbrev Score := ℚ

/-- A grayscale image: a list of rows of pixel values. -/
abbrev Img := List (List Score)

/-- A 2-D correlation map (the output of skimage match_template). -/
structure CorrMap where
  data : List (List Score)
deriving DecidableEq

/-- the numpy read `corrMap.shape` for a 2-D array: (number of rows, number of columns). -/
def CorrMap.shape (c : CorrMap) : ℕ × ℕ :=
  (c.data.length, (c.data.headD []).length)

/-- the numpy read `corrMap[row, col]` read access (line 29 and line 103 of
src/MTM/__init__.py); out-of-range reads default to 0, which never happens
for in-range peaks. -/
def CorrMap.get (c : CorrMap) (peak : ℕ × ℕ) : Score :=
  (c.data.getD peak.1 []).getD peak.2 0

/-- The dynamically typed `nObjects` argument of findMatches/matchTemplates:
a Python int, a finite Python float, or `float("inf")`. -/
inductive NObjArg where
  | int : ℤ → NObjArg
  | float : ℚ → NObjArg
  | inf : NObjArg
deriving DecidableEq

/-- Line 75 of src/MTM/__init__.py: the test
`nObjects != float("inf") and type(nObjects) != int` passes (returns
`true` here) exactly for ints and for `float("inf")`. -/
def NObjArg.isValidType : NObjArg → Bool
  | .int _ => true
  | .float _ => false
  | .inf => true

/-- Line 78 of src/MTM/__init__.py: the Python comparison `nObjects < 1`
(`float("inf") < 1` is false). -/
def NObjArg.ltOne : NObjArg → Bool
  | .int n => decide (n < 1)
  | .float q => decide (q < 1)
  | .inf => false

/-- Line 32 of src/MTM/__init__.py: the Python numeric equality
`nObjects == 1` (true for the int 1 and for the float 1.0, false for
`float("inf")`). -/
def NObjArg.eqOne : NObjArg → Bool
  | .int n => decide (n = 1)
  | .float q => decide (q = 1)
  | .inf => false

/-- The `num_peaks` argument handed to skimage peak_local_max: a finite
count or `float("inf")` (unbounded). -/
inductive NPeaks where
  | num : ℕ → NPeaks
  | inf : NPeaks
deriving DecidableEq

/-- Line 32 of src/MTM/__init__.py:
`nPeaks = 1 if nObjects == 1 else float("inf")`. -/
def nPeaksFor (nObjects : NObjArg) : NPeaks :=
  if nObjects.eqOne then NPeaks.num 1 else NPeaks.inf

/-- Interface of the external local-maxima primitive
skimage.feature.peak_local_max, restricted to the arguments the repository
passes (correlation map, threshold_abs, num_peaks); exclude_border is
always false. It returns (row, col) coordinates. -/
abbrev PeakFinder := CorrMap → Score → NPeaks → List (ℕ × ℕ)

/-- Interface of the external correlation provider
skimage.feature.match_template: image and template to correlation map. -/
abbrev CorrProvider := Img → Img → CorrMap

/-- Lines 19-39 of src/MTM/__init__.py: findMaximas. On a 1×1 map the
single score is compared against the threshold directly; otherwise the
external peak_local_max is invoked with `threshold_abs = score_threshold`
and `num_peaks = nPeaksFor nObjects`. -/
def findMaximas (peak_local_max : PeakFinder) (corrMap : CorrMap)
    (score_threshold : Score) (nObjects : NObjArg) : List (ℕ × ℕ) :=
  if corrMap.shape = (1, 1) then
    if corrMap.get (0, 0) ≥ score_threshold then [(0, 0)] else []
  else
    peak_local_max corrMap score_threshold (nPeaksFor nObjects)

/-- Python exceptions raised by the validation code of the pipeline itself. -/
inductive PyErr where
  | typeErr : String → PyErr
  | valueErr : String → PyErr
deriving DecidableEq

/-- Modelled from the spec: the Detection Entity (class `BoundingBox` of
src/MTM/Detection.py, which is not present under src/): an immutable value
holding position (top-left x, y), size (width, height), score, originating
template index and an optional category label (empty string means
uncategorized). -/
structure BoundingBox where
  x : ℕ
  y : ℕ
  width : ℕ
  height : ℕ
  score : Score
  index : ℕ
  label : String
deriving DecidableEq

/-- Line 100 of src/MTM/__init__.py:
`label = listLabels[index] if listLabels else ""` — the Python truthiness
test is false for `None` and for the empty list. -/
def labelFor (listLabels : Option (List String)) (index : ℕ) : String :=
  match listLabels with
  | none => ""
  | some ls => if ls.isEmpty then "" else ls.getD index ""

/-- Lines 81-82 of src/MTM/__init__.py: the condition
`listLabels is not None and (len(listTemplates) != len(listLabels))`. -/
def labelsMismatch (listLabels : Option (List String)) (listTemplates : List Img) : Bool :=
  match listLabels with
  | none => false
  | some ls => decide (listTemplates.length ≠ ls.length)

/-- Python slicing `l[start:stop]` for nonnegative bounds: out-of-range
bounds are silently clipped, an empty slice is returned when
`start ≥ stop` or `start ≥ len(l)`. -/
def pySlice {α : Type} (l : List α) (start stop : ℕ) : List α :=
  (l.drop start).take (stop - start)

/-- Lines 88-89 of src/MTM/__init__.py: the numpy crop
`image[yOffset:yOffset+searchHeight, xOffset:xOffset+searchWidth]`. -/
def cropImage (image : Img) (x y w h : ℕ) : Img :=
  (pySlice image y (y + h)).map (fun row => pySlice row x (x + w))

/-- Lines 99-108 of src/MTM/__init__.py: the hit built for one peak:
`height, width = template.shape[0:2]`, bbox
`(int(peak[1]) + xOffset, int(peak[0]) + yOffset, width, height)`,
score `corrMap[tuple(peak)]`, plus template index and label. -/
def mkHit (corrMap : CorrMap) (template : Img) (listLabels : Option (List String))
    (index xOffset yOffset : ℕ) (peak : ℕ × ℕ) : BoundingBox :=
  { x := peak.2 + xOffset
    y := peak.1 + yOffset
    width := (template.headD []).length
    height := template.length
    score := corrMap.get peak
    index := index
    label := labelFor listLabels index }

/-- Lines 93-111 of src/MTM/__init__.py: the per-template loop
`for index, template in enumerate(listTemplates)` over the (possibly
cropped) image, concatenating the hits of every template in order. -/
def assembleHits (match_template : CorrProvider) (peak_local_max : PeakFinder)
    (searchedImage : Img) (listTemplates : List Img)
    (listLabels : Option (List String)) (score_threshold : Score)
    (nObjects : NObjArg) (xOffset yOffset : ℕ) : List BoundingBox :=
  listTemplates.enum.flatMap (fun it =>
    (findMaximas peak_local_max (match_template searchedImage it.2)
        score_threshold nObjects).map
      (mkHit (match_template searchedImage it.2) it.2 listLabels it.1 xOffset yOffset))

/-- Lines 42-111 of src/MTM/__init__.py: findMatches — validation of
nObjects and labels, optional crop to the searchBox, then the
per-template hit assembly. -/
def findMatches (match_template : CorrProvider) (peak_local_max : PeakFinder)
    (image : Img) (listTemplates : List Img) (listLabels : Option (List String))
    (score_threshold : Score) (nObjects : NObjArg)
    (searchBox : Option (ℕ × ℕ × ℕ × ℕ)) : Except PyErr (List BoundingBox) :=
  if nObjects.isValidType = false then
    .error (.typeErr "nObjects must be an integer")
  else if nObjects.ltOne then
    .error (.valueErr "At least one object should be expected in the image")
  else if labelsMismatch listLabels listTemplates then
    .error (.valueErr "There must be one label per template.")
  else
    match searchBox with
    | some (x, y, w, h) =>
        .ok (assembleHits match_template peak_local_max (cropImage image x y w h)
              listTemplates listLabels score_threshold nObjects x y)
    | none =>
        .ok (assembleHits match_template peak_local_max image
              listTemplates listLabels score_threshold nObjects 0 0)

/-- Lines 86-91 of src/MTM/__init__.py: the image actually searched — the
crop when a searchBox is given, the whole image otherwise. -/
def searchedImageOf (image : Img) (searchBox : Option (ℕ × ℕ × ℕ × ℕ)) : Img :=
  match searchBox with
  | some (x, y, w, h) => cropImage image x y w h
  | none => image

/-- Lines 86-91 of src/MTM/__init__.py: xOffset — the searchBox origin x,
or 0 when no searchBox is given. -/
def xOffsetOf (searchBox : Option (ℕ × ℕ × ℕ × ℕ)) : ℕ :=
  match searchBox with
  | some (x, _, _, _) => x
  | none => 0

/-- Lines 86-91 of src/MTM/__init__.py: yOffset — the searchBox origin y,
or 0 when no searchBox is given. -/
def yOffsetOf (searchBox : Option (ℕ × ℕ × ℕ × ℕ)) : ℕ :=
  match searchBox with
  | some (_, y, _, _) => y
  | none => 0

/-- Interface of the external NMS routine imported from .NMS:
`NMS(listHit, maxOverlap, nObjects)`. -/
abbrev NMSFn := List BoundingBox → Score → NObjArg → List BoundingBox

/-- Lines 114-153 of src/MTM/__init__.py: matchTemplates — the maxOverlap
range check, then findMatches, then NMS on the candidate pool. -/
def matchTemplates (match_template : CorrProvider) (peak_local_max : PeakFinder)
    (nms : NMSFn) (image : Img) (listTemplates : List Img)
    (listLabels : Option (List String)) (score_threshold maxOverlap : Score)
    (nObjects : NObjArg) (searchBox : Option (ℕ × ℕ × ℕ × ℕ)) :
    Except PyErr (List BoundingBox) :=
  if maxOverlap < 0 ∨ maxOverlap > 1 then
    .error (.valueErr "Maximal overlap between bounding box is in range [0-1]")
  else
    (findMatches match_template peak_local_max image listTemplates listLabels
        score_threshold nObjects searchBox).map
      (fun listHit => nms listHit maxOverlap nObjects)

/-- Line 196 of src/MTM/__init__.py:
`colorIndex = detection.get_template_index() % nColors`. -/
def colorIndexOf (detection : BoundingBox) (nColors : ℕ) : ℕ :=
  detection.index % nColors

/-- Lines 187-201 of src/MTM/__init__.py: the color drawn for each
detection of plotDetections, i.e. `palette[colorIndex]` per detection in
list order (the palette is never empty, so the default is never used). -/
def plotColors {C : Type} (palette : List C) (dflt : C)
    (listDetections : List BoundingBox) : List C :=
  listDetections.map (fun d => palette.getD (colorIndexOf d palette.length) dflt)

end MTM

namespace MTM

/-- Helper: a list is pairwise related by a relation that holds between
any two elements. -/
theorem pairwise_of_rel_total {α : Type} {R : α → α → Prop} (h : ∀ a b, R a b) :
    ∀ l : List α, List.Pairwise R l := by
  intro l
  induction l with
  | nil => exact .nil
  | cons a l ih => exact .cons (fun b _ => h a b) ih

/-- Helper: every hit assembled from the enumerate-loop started at
counter k carries a template index ≥ k. -/
theorem le_index_of_mem_hits_enumFrom (mt : CorrProvider) (plm : PeakFinder)
    (img : Img) (labels : Option (List String)) (thr : Score) (n : NObjArg)
    (xo yo : ℕ) :
    ∀ (ts : List Img) (k : ℕ) (b : BoundingBox),
      b ∈ (List.enumFrom k ts).flatMap (fun it =>
          (findMaximas plm (mt img it.2) thr n).map
            (mkHit (mt img it.2) it.2 labels it.1 xo yo)) →
      k ≤ b.index := by
  intro ts
  induction ts with
  | nil => intro k b hb; simp at hb
  | cons t rest ih =>
      intro k b hb
      rw [List.enumFrom_cons, List.flatMap_cons] at hb
      rcases List.mem_append.mp hb with hb | hb
      · obtain ⟨p, _, rfl⟩ := List.mem_map.mp hb
        simp [mkHit]
      · exact le_trans (Nat.le_succ k) (ih (k + 1) b hb)

/-- Helper: hits assembled from the enumerate-loop started at counter k
have pairwise nondecreasing template indexes. -/
theorem pairwise_index_hits_enumFrom (mt : CorrProvider) (plm : PeakFinder)
    (img : Img) (labels : Option (List String)) (thr : Score) (n : NObjArg)
    (xo yo : ℕ) :
    ∀ (ts : List Img) (k : ℕ),
      List.Pairwise (fun a b : BoundingBox => a.index ≤ b.index)
        ((List.enumFrom k ts).flatMap (fun it =>
          (findMaximas plm (mt img it.2) thr n).map
            (mkHit (mt img it.2) it.2 labels it.1 xo yo))) := by
  intro ts
  induction ts with
  | nil => intro k; simp
  | cons t rest ih =>
      intro k
      rw [List.enumFrom_cons, List.flatMap_cons, List.pairwise_append]
      refine ⟨?_, ih (k + 1), ?_⟩
      · rw [List.pairwise_map]
        exact pairwise_of_rel_total (fun a b => by simp [mkHit]) _
      · intro a ha b hb
        obtain ⟨p, _, rfl⟩ := List.mem_map.mp ha
        have hk := le_index_of_mem_hits_enumFrom mt plm img labels thr n xo yo rest (k + 1) b hb
        simp only [mkHit]
        omega

end MTM

namespace MTM

/-- Helper: in the pool assembled from the enumerate-loop started at
counter k, the hits carrying template index k + i are exactly the hits of
the i-th remaining template, in peak-discovery order. -/
theorem filter_index_hits_enumFrom (mt : CorrProvider) (plm : PeakFinder)
    (img : Img) (labels : Option (List String)) (thr : Score) (n : NObjArg)
    (xo yo : ℕ) :
    ∀ (ts : List Img) (k i : ℕ) (t : Img), ts[i]? = some t →
      ((List.enumFrom k ts).flatMap (fun it =>
          (findMaximas plm (mt img it.2) thr n).map
            (mkHit (mt img it.2) it.2 labels it.1 xo yo))).filter
          (fun b => decide (b.index = k + i))
        = (findMaximas plm (mt img t) thr n).map
            (mkHit (mt img t) t labels (k + i) xo yo) := by
  intro ts
  induction ts with
  | nil => intro k i t ht; simp at ht
  | cons t0 rest ih =>
      intro k i t ht
      rw [List.enumFrom_cons, List.flatMap_cons, List.filter_append]
      cases i with
      | zero =>
          rw [List.getElem?_cons_zero, Option.some.injEq] at ht
          subst ht
          simp only [Nat.add_zero]
          have h1 : ((findMaximas plm (mt img t0) thr n).map
                (mkHit (mt img t0) t0 labels k xo yo)).filter
                (fun b => decide (b.index = k))
              = (findMaximas plm (mt img t0) thr n).map
                  (mkHit (mt img t0) t0 labels k xo yo) := by
            apply List.filter_eq_self.mpr
            intro b hb
            obtain ⟨p, _, rfl⟩ := List.mem_map.mp hb
            simp [mkHit]
          have h2 : ((List.enumFrom (k + 1) rest).flatMap (fun it =>
                (findMaximas plm (mt img it.2) thr n).map
                  (mkHit (mt img it.2) it.2 labels it.1 xo yo))).filter
                (fun b => decide (b.index = k)) = [] := by
            apply List.filter_eq_nil_iff.mpr
            intro b hb
            have hk := le_index_of_mem_hits_enumFrom mt plm img labels thr n xo yo
              rest (k + 1) b hb
            simp only [decide_eq_true_eq]
            omega
          rw [h1, h2, List.append_nil]
      | succ j =>
          rw [List.getElem?_cons_succ] at ht
          have h1 : ((findMaximas plm (mt img t0) thr n).map
                (mkHit (mt img t0) t0 labels k xo yo)).filter
                (fun b => decide (b.index = k + (j + 1))) = [] := by
            apply List.filter_eq_nil_iff.mpr
            intro b hb
            obtain ⟨p, _, rfl⟩ := List.mem_map.mp hb
            simp only [mkHit, decide_eq_true_eq]
            omega
          rw [h1, List.nil_append]
          have hk : k + (j + 1) = k + 1 + j := by omega
          rw [hk]
          exact ih (k + 1) j t ht

/-- C1: the claim says that for nObjects = 1 thresholding is skipped inside
peak extraction, so the global maximum is returned even below
score_threshold. The code applies the threshold nonetheless: on the 1×1
correlation surface [[3/10]] with score_threshold 6/10 and nObjects = 1,
findMaximas returns no peak at all (first conjunct), and the whole
matchTemplates pipeline consequently returns zero detections (second
conjunct), contradicting the docstring of matchTemplates itself
"if nObjects=1, return the best matches independently of the
score_threshold". -/
theorem findMaximas_single_object_threshold_bug :
    findMaximas (fun _ _ _ => [(0, 0)]) ⟨[[(3 : ℚ)/10]]⟩ (6/10) (NObjArg.int 1) = [] ∧
    matchTemplates (fun _ _ => ⟨[[(3 : ℚ)/10]]⟩) (fun _ _ _ => [(0, 0)]) (fun l _ _ => l)
      [[0]] [[[0]]] none (6/10) (1/4) (NObjArg.int 1) none = .ok [] := by
  constructor
  · simp [findMaximas, CorrMap.shape, CorrMap.get]
    norm_num
  · simp [matchTemplates, findMatches, assembleHits, findMaximas, CorrMap.shape, CorrMap.get,
      NObjArg.isValidType, NObjArg.ltOne, labelsMismatch, Except.map]
    norm_num

/-- C2: on a 1×1 correlation surface findMaximas returns exactly [(0,0)]
when the sole value is ≥ score_threshold and the empty list otherwise,
for every peak finder, threshold and nObjects; in particular value 9/10
against threshold 6/10 gives [(0,0)] and against threshold 95/100 gives
[]. -/
theorem findMaximas_degenerate_surface :
    (∀ (plm : PeakFinder) (thr v : Score) (n : NObjArg),
        findMaximas plm ⟨[[v]]⟩ thr n = if v ≥ thr then [(0, 0)] else []) ∧
    (∀ (plm : PeakFinder) (n : NObjArg),
        findMaximas plm ⟨[[(9 : ℚ)/10]]⟩ (6/10) n = [(0, 0)]) ∧
    (∀ (plm : PeakFinder) (n : NObjArg),
        findMaximas plm ⟨[[(9 : ℚ)/10]]⟩ (95/100) n = []) := by
  refine ⟨?_, ?_, ?_⟩
  · intro plm thr v n
    simp [findMaximas, CorrMap.shape, CorrMap.get]
  · intro plm n
    simp [findMaximas, CorrMap.shape, CorrMap.get]
    norm_num
  · intro plm n
    simp [findMaximas, CorrMap.shape, CorrMap.get]
    norm_num

/-- C3: every hit of the candidate pool comes from a peak of the
correlation surface of some template and carries position
(peakCol + xOffset, peakRow + yOffset), the template size (width, height),
the surface value at the peak as score, the list position of the template as
index, and the matching label (empty when labels are absent); and the
concrete scenario searchBox = (20,20,30,30) with a peak at local (5,5)
yields a detection at position (25,25). -/
theorem findMatches_hit_fields :
    (∀ (mt : CorrProvider) (plm : PeakFinder) (img : Img) (ts : List Img)
        (labels : Option (List String)) (thr : Score) (n : NObjArg) (xo yo : ℕ)
        (hit : BoundingBox),
        hit ∈ assembleHits mt plm img ts labels thr n xo yo ↔
          ∃ i t peak, ts[i]? = some t ∧
            peak ∈ findMaximas plm (mt img t) thr n ∧
            hit = { x := peak.2 + xo, y := peak.1 + yo,
                    width := (t.headD []).length, height := t.length,
                    score := (mt img t).get peak, index := i,
                    label := labelFor labels i }) ∧
    findMatches (fun _ _ => ⟨[[0, 0], [0, 0]]⟩) (fun _ _ _ => [(5, 5)])
        [[0]] [[[0]]] none (1/2) NObjArg.inf (some (20, 20, 30, 30))
      = .ok [{ x := 25, y := 25, width := 1, height := 1, score := 0,
               index := 0, label := "" }] := by
  constructor
  · intro mt plm img ts labels thr n xo yo hit
    constructor
    · intro h
      simp only [assembleHits, List.mem_flatMap, List.mem_map] at h
      obtain ⟨⟨i, t⟩, hmem, p, hp, rfl⟩ := h
      exact ⟨i, t, p, List.mk_mem_enum_iff_getElem?.mp hmem, hp, rfl⟩
    · rintro ⟨i, t, p, hget, hp, rfl⟩
      simp only [assembleHits, List.mem_flatMap, List.mem_map]
      exact ⟨(i, t), List.mk_mem_enum_iff_getElem?.mpr hget, p, hp, rfl⟩
  · simp [findMatches, assembleHits, findMaximas, CorrMap.shape, CorrMap.get, cropImage,
      pySlice, NObjArg.isValidType, NObjArg.ltOne, labelsMismatch, mkHit, nPeaksFor,
      labelFor, NObjArg.eqOne]

/-- C6: on every correlation surface larger than 1×1, findMaximas hands
the external peak finder num_peaks = 1 exactly when nObjects equals 1,
and an unbounded num_peaks for every other nObjects (finite counts above
1 included) — it never limits the peak count to nObjects. -/
theorem findMaximas_peak_request :
    ∀ (plm : PeakFinder) (c : CorrMap) (thr : Score) (n : NObjArg),
      c.shape ≠ (1, 1) →
      findMaximas plm c thr n = plm c thr (nPeaksFor n) ∧
      (n.eqOne = true → nPeaksFor n = NPeaks.num 1) ∧
      (n.eqOne = false → nPeaksFor n = NPeaks.inf) := by
  intro plm c thr n h
  refine ⟨by simp only [findMaximas, if_neg h], fun he => by simp [nPeaksFor, he],
    fun he => by simp [nPeaksFor, he]⟩

/-- Witness for C6: a 2×2 surface with nObjects = 5; the peak finder is
invoked with unbounded num_peaks and its full answer is returned. -/
theorem findMaximas_peak_request_witness :
    findMaximas (fun _ _ np => if np = NPeaks.inf then [(0, 0), (1, 1)] else [(0, 0)])
        ⟨[[0, 0], [0, 0]]⟩ (1/2) (NObjArg.int 5) = [(0, 0), (1, 1)] ∧
    nPeaksFor (NObjArg.int 5) = NPeaks.inf := by
  have h := findMaximas_peak_request
      (fun _ _ np => if np = NPeaks.inf then [(0, 0), (1, 1)] else [(0, 0)])
      ⟨[[0, 0], [0, 0]]⟩ (1/2) (NObjArg.int 5) (by simp [CorrMap.shape])
  have he : (NObjArg.int 5).eqOne = false := by simp [NObjArg.eqOne]
  refine ⟨?_, h.2.2 he⟩
  rw [h.1, h.2.2 he]
  simp

/-- C7: the candidate pool returned by findMatches is ordered by
originating template index — any hit produced for an earlier template
precedes every hit produced for a later one — and, within one template,
by peak discovery order: the hits carrying template index i are exactly
the peaks of template i, mapped to hits in the order the peak list
delivered them. -/
theorem findMatches_template_order :
    ∀ (mt : CorrProvider) (plm : PeakFinder) (image : Img) (ts : List Img)
      (labels : Option (List String)) (thr : Score) (n : NObjArg)
      (sb : Option (ℕ × ℕ × ℕ × ℕ)) (hits : List BoundingBox),
      findMatches mt plm image ts labels thr n sb = .ok hits →
      List.Pairwise (fun a b : BoundingBox => a.index ≤ b.index) hits ∧
      ∀ (i : ℕ) (t : Img), ts[i]? = some t →
        hits.filter (fun b => decide (b.index = i))
          = (findMaximas plm (mt (searchedImageOf image sb) t) thr n).map
              (mkHit (mt (searchedImageOf image sb) t) t labels i
                (xOffsetOf sb) (yOffsetOf sb)) := by
  intro mt plm image ts labels thr n sb hits h
  have hh : hits = assembleHits mt plm (searchedImageOf image sb) ts labels thr n
      (xOffsetOf sb) (yOffsetOf sb) := by
    unfold findMatches at h
    split_ifs at h
    rcases sb with _ | ⟨x, y, w, hgt⟩ <;> simp only [Except.ok.injEq] at h <;>
      exact h.symm
  subst hh
  constructor
  · exact pairwise_index_hits_enumFrom mt plm _ labels thr n _ _ ts 0
  · intro i t ht
    have hf := filter_index_hits_enumFrom mt plm (searchedImageOf image sb) labels thr n
      (xOffsetOf sb) (yOffsetOf sb) ts 0 i t ht
    simpa using hf

/-- Witness for C7: two templates, one peak each; the assembled pool has
template indexes in nondecreasing order, and the hits carrying template
index 1 are exactly the mapped peak list of the second template. -/
theorem findMatches_template_order_witness :
    List.Pairwise (fun a b : BoundingBox => a.index ≤ b.index)
      [{ x := 0, y := 0, width := 1, height := 1, score := 0, index := 0, label := "" },
       { x := 0, y := 0, width := 1, height := 1, score := 0, index := 1, label := "" }] ∧
    List.filter (fun b : BoundingBox => decide (b.index = 1))
      [{ x := 0, y := 0, width := 1, height := 1, score := 0, index := 0, label := "" },
       { x := 0, y := 0, width := 1, height := 1, score := 0, index := 1, label := "" }]
      = [{ x := 0, y := 0, width := 1, height := 1, score := 0, index := 1, label := "" }] := by
  have h := findMatches_template_order (fun _ _ => ⟨[[0, 0], [0, 0]]⟩)
    (fun _ _ _ => [(0, 0)]) [[0]] [[[0]], [[0]]] none (1/2) NObjArg.inf none
    [{ x := 0, y := 0, width := 1, height := 1, score := 0, index := 0, label := "" },
     { x := 0, y := 0, width := 1, height := 1, score := 0, index := 1, label := "" }] rfl
  refine ⟨h.1, ?_⟩
  have h2 := h.2 1 [[0]] rfl
  exact h2.trans rfl

end MTM

namespace MTM

/-- Counterexample for C4: with maxOverlap = 2 (out of range) and a
non-integer nObjects = 0.5 simultaneously, matchTemplates raises the
maxOverlap ValueError, not the nObjects TypeError — so the maxOverlap
check is not performed last. -/
theorem matchTemplates_order_cex :
    matchTemplates (fun _ _ => ⟨[[0]]⟩) (fun _ _ _ => []) (fun l _ _ => l)
        [[0]] [] none (1/2) 2 (NObjArg.float (1/2)) none
      = .error (.valueErr "Maximal overlap between bounding box is in range [0-1]") ∧
    matchTemplates (fun _ _ => ⟨[[0]]⟩) (fun _ _ _ => []) (fun l _ _ => l)
        [[0]] [] none (1/2) 2 (NObjArg.float (1/2)) none
      ≠ .error (.typeErr "nObjects must be an integer") := by
  have h : matchTemplates (fun _ _ => ⟨[[0]]⟩) (fun _ _ _ => []) (fun l _ _ => l)
      [[0]] [] none (1/2) 2 (NObjArg.float (1/2)) none
      = .error (.valueErr "Maximal overlap between bounding box is in range [0-1]") := by
    rw [matchTemplates, if_pos]
    norm_num
  exact ⟨h, by rw [h]; simp⟩

/-- C4 (amended): matchTemplates validates maxOverlap ∈ [0,1] FIRST; only
then does the delegated findMatches validate, in order, that nObjects is
an integer or the unbounded sentinel, that nObjects ≥ 1, and that the
labels length matches the templates length when labels are provided; each
failing check raises the corresponding error. -/
theorem matchTemplates_validation_order :
    ∀ (mt : CorrProvider) (plm : PeakFinder) (nms : NMSFn) (image : Img)
      (ts : List Img) (labels : Option (List String)) (thr mo : Score)
      (n : NObjArg) (sb : Option (ℕ × ℕ × ℕ × ℕ)),
      ((mo < 0 ∨ mo > 1) →
        matchTemplates mt plm nms image ts labels thr mo n sb
          = .error (.valueErr "Maximal overlap between bounding box is in range [0-1]")) ∧
      (¬(mo < 0 ∨ mo > 1) → n.isValidType = false →
        matchTemplates mt plm nms image ts labels thr mo n sb
          = .error (.typeErr "nObjects must be an integer")) ∧
      (¬(mo < 0 ∨ mo > 1) → n.isValidType = true → n.ltOne = true →
        matchTemplates mt plm nms image ts labels thr mo n sb
          = .error (.valueErr "At least one object should be expected in the image")) ∧
      (¬(mo < 0 ∨ mo > 1) → n.isValidType = true → n.ltOne = false →
        labelsMismatch labels ts = true →
        matchTemplates mt plm nms image ts labels thr mo n sb
          = .error (.valueErr "There must be one label per template.")) := by
  intro mt plm nms image ts labels thr mo n sb
  refine ⟨fun hmo => by rw [matchTemplates, if_pos hmo], fun hmo hv => ?_,
    fun hmo hv hl => ?_, fun hmo hv hl hm => ?_⟩
  · rw [matchTemplates, if_neg hmo, findMatches.eq_def, if_pos (by rw [hv])]
    rfl
  · rw [matchTemplates, if_neg hmo, findMatches.eq_def, if_neg (by rw [hv]; simp),
      if_pos (by rw [hl])]
    rfl
  · rw [matchTemplates, if_neg hmo, findMatches.eq_def, if_neg (by rw [hv]; simp),
      if_neg (by rw [hl]; simp), if_pos (by rw [hm])]
    rfl

/-- Witness for the amended ordering of C4: out-of-range maxOverlap = 2 raises
the overlap ValueError even though nObjects = 0.5 is also invalid. -/
theorem matchTemplates_validation_order_witness :
    matchTemplates (fun _ _ => ⟨[[1]]⟩) (fun _ _ _ => []) (fun l _ _ => l)
        [[1]] [] none (1/2) 2 (NObjArg.float (1/2)) none
      = .error (.valueErr "Maximal overlap between bounding box is in range [0-1]") :=
  (matchTemplates_validation_order (fun _ _ => ⟨[[1]]⟩) (fun _ _ _ => [])
    (fun l _ _ => l) [[1]] [] none (1/2) 2 (NObjArg.float (1/2)) none).1
    (by norm_num)

/-- C5: on every invalid argument combination (wrong nObjects type,
nObjects < 1, mismatched label/template counts, maxOverlap outside
[0,1]), matchTemplates returns an error, and the result is identical for
every correlation provider, peak finder and NMS routine — no correlation
work can influence it, i.e. the failure is raised before any correlation
is performed. -/
theorem matchTemplates_fail_fast :
    ∀ (mt mt' : CorrProvider) (plm plm' : PeakFinder) (nms nms' : NMSFn)
      (image : Img) (ts : List Img) (labels : Option (List String))
      (thr mo : Score) (n : NObjArg) (sb : Option (ℕ × ℕ × ℕ × ℕ)),
      (n.isValidType = false ∨ n.ltOne = true ∨ labelsMismatch labels ts = true ∨
        mo < 0 ∨ mo > 1) →
      (∃ e, matchTemplates mt plm nms image ts labels thr mo n sb = .error e) ∧
      matchTemplates mt plm nms image ts labels thr mo n sb
        = matchTemplates mt' plm' nms' image ts labels thr mo n sb := by
  intro mt mt' plm plm' nms nms' image ts labels thr mo n sb h
  by_cases hmo : mo < 0 ∨ mo > 1
  · constructor
    · exact ⟨_, by rw [matchTemplates, if_pos hmo]⟩
    · rw [matchTemplates, if_pos hmo, matchTemplates, if_pos hmo]
  · have hfm : ∃ e, ∀ (a : CorrProvider) (b : PeakFinder),
        findMatches a b image ts labels thr n sb = .error e := by
      cases hv : n.isValidType with
      | false => exact ⟨_, fun a b => by rw [findMatches.eq_def, if_pos (by rw [hv])]⟩
      | true =>
          cases hl : n.ltOne with
          | true =>
              exact ⟨_, fun a b => by
                rw [findMatches.eq_def, if_neg (by rw [hv]; simp), if_pos (by rw [hl])]⟩
          | false =>
              cases hm : labelsMismatch labels ts with
              | true =>
                  exact ⟨_, fun a b => by
                    rw [findMatches.eq_def, if_neg (by rw [hv]; simp),
                      if_neg (by rw [hl]; simp), if_pos (by rw [hm])]⟩
              | false =>
                  exfalso
                  rcases h with h | h | h | h | h
                  · rw [hv] at h; simp at h
                  · rw [hl] at h; simp at h
                  · rw [hm] at h; simp at h
                  · exact hmo (Or.inl h)
                  · exact hmo (Or.inr h)
    obtain ⟨e, he⟩ := hfm
    constructor
    · exact ⟨e, by rw [matchTemplates, if_neg hmo, he mt plm]; rfl⟩
    · rw [matchTemplates, if_neg hmo, he mt plm, matchTemplates, if_neg hmo, he mt' plm']
      rfl

/-- Witness for C5: labels ["cat","dog"] against three templates make
matchTemplates fail with the label-arity error for any providers, and two
different provider triples give the same result. -/
theorem matchTemplates_fail_fast_witness :
    (∃ e, matchTemplates (fun _ _ => ⟨[[0]]⟩) (fun _ _ _ => []) (fun l _ _ => l)
        [[0]] [[[0]], [[0]], [[0]]] (some ["cat", "dog"]) (1/2) (1/4) NObjArg.inf none
        = .error e) ∧
    matchTemplates (fun _ _ => ⟨[[0]]⟩) (fun _ _ _ => []) (fun l _ _ => l)
        [[0]] [[[0]], [[0]], [[0]]] (some ["cat", "dog"]) (1/2) (1/4) NObjArg.inf none
      = matchTemplates (fun _ _ => ⟨[[1]]⟩) (fun _ _ _ => [(0, 0)]) (fun _ _ _ => [])
        [[0]] [[[0]], [[0]], [[0]]] (some ["cat", "dog"]) (1/2) (1/4) NObjArg.inf none :=
  matchTemplates_fail_fast (fun _ _ => ⟨[[0]]⟩) (fun _ _ => ⟨[[1]]⟩) (fun _ _ _ => [])
    (fun _ _ _ => [(0, 0)]) (fun l _ _ => l) (fun _ _ _ => [])
    [[0]] [[[0]], [[0]], [[0]]] (some ["cat", "dog"]) (1/2) (1/4) NObjArg.inf none
    (Or.inr (Or.inr (Or.inl (by rfl))))

end MTM

namespace MTM

/-- C9: a searchBox reaching past the image boundary never makes
findMatches fail: the crop is silently clipped to the intersection of the
searchBox rectangle with the image (its row count and row lengths are
those of the intersection), the search proceeds over that clipped region,
and coordinates are still offset by the requested (x, y) origin. -/
theorem findMatches_searchBox_clip :
    ∀ (mt : CorrProvider) (plm : PeakFinder) (image : Img) (ts : List Img)
      (labels : Option (List String)) (thr : Score) (n : NObjArg)
      (x y w h W : ℕ),
      n.isValidType = true → n.ltOne = false → labelsMismatch labels ts = false →
      (∀ row ∈ image, row.length = W) →
      findMatches mt plm image ts labels thr n (some (x, y, w, h))
        = .ok (assembleHits mt plm (cropImage image x y w h) ts labels thr n x y) ∧
      (cropImage image x y w h).length = min (y + h) image.length - y ∧
      ∀ row ∈ cropImage image x y w h, row.length = min (x + w) W - x := by
  intro mt plm image ts labels thr n x y w h W hv hl hm hW
  refine ⟨?_, ?_, ?_⟩
  · rw [findMatches.eq_def, if_neg (by rw [hv]; simp), if_neg (by rw [hl]; simp),
      if_neg (by rw [hm]; simp)]
  · simp only [cropImage, pySlice, List.length_map, List.length_take, List.length_drop]
    omega
  · intro row hrow
    simp only [cropImage, List.mem_map] at hrow
    obtain ⟨r, hr, rfl⟩ := hrow
    have hrim : r ∈ image := List.drop_subset _ _ (List.take_subset _ _ hr)
    have hlen : r.length = W := hW r hrim
    simp only [pySlice, List.length_take, List.length_drop, hlen]
    omega

/-- Witness for C9: a (1,1,5,5) searchBox on a 2×2 image — far past the
boundary — still returns successfully, and the crop is the 1×1
intersection. -/
theorem findMatches_searchBox_clip_witness :
    findMatches (fun _ _ => ⟨[[0]]⟩) (fun _ _ _ => []) [[1, 2], [3, 4]] [] none
        (1/2) NObjArg.inf (some (1, 1, 5, 5))
      = .ok (assembleHits (fun _ _ => ⟨[[0]]⟩) (fun _ _ _ => [])
          (cropImage [[1, 2], [3, 4]] 1 1 5 5) [] none (1/2) NObjArg.inf 1 1) ∧
    (cropImage [[(1 : ℚ), 2], [3, 4]] 1 1 5 5).length = 1 := by
  have hc := findMatches_searchBox_clip (fun _ _ => ⟨[[0]]⟩) (fun _ _ _ => [])
    [[1, 2], [3, 4]] [] none (1/2) NObjArg.inf 1 1 5 5 2
    rfl rfl rfl (by
      intro row hrow
      simp only [List.mem_cons, List.not_mem_nil, or_false] at hrow
      rcases hrow with rfl | rfl <;> rfl)
  refine ⟨hc.1, ?_⟩
  rw [hc.2.1]
  norm_num

/-- C10: with an empty template list (labels absent or empty) and
otherwise valid arguments, findMatches returns an empty candidate pool
without error, and the result is identical for every correlation
provider and peak finder — neither is ever consulted. -/
theorem findMatches_no_templates :
    ∀ (mt mt' : CorrProvider) (plm plm' : PeakFinder) (image : Img)
      (labels : Option (List String)) (thr : Score) (n : NObjArg)
      (sb : Option (ℕ × ℕ × ℕ × ℕ)),
      n.isValidType = true → n.ltOne = false →
      (labels = none ∨ labels = some []) →
      findMatches mt plm image [] labels thr n sb = .ok [] ∧
      findMatches mt plm image [] labels thr n sb
        = findMatches mt' plm' image [] labels thr n sb := by
  intro mt mt' plm plm' image labels thr n sb hv hl hlab
  have hm : labelsMismatch labels [] = false := by
    rcases hlab with rfl | rfl <;> rfl
  have hok : ∀ (a : CorrProvider) (b : PeakFinder),
      findMatches a b image [] labels thr n sb = .ok [] := by
    intro a b
    rw [findMatches.eq_def, if_neg (by rw [hv]; simp), if_neg (by rw [hl]; simp),
      if_neg (by rw [hm]; simp)]
    rcases sb with _ | ⟨x, y, w, h⟩ <;> rfl
  exact ⟨hok mt plm, by rw [hok mt plm, hok mt' plm']⟩

/-- Witness for C10: an empty template list on a concrete image returns
the empty pool for two different provider pairs. -/
theorem findMatches_no_templates_witness :
    findMatches (fun _ _ => ⟨[[0]]⟩) (fun _ _ _ => []) [[1]] [] none (1/2)
        NObjArg.inf none = .ok [] ∧
    findMatches (fun _ _ => ⟨[[0]]⟩) (fun _ _ _ => []) [[1]] [] none (1/2)
        NObjArg.inf none
      = findMatches (fun _ _ => ⟨[[5]]⟩) (fun _ _ _ => [(0, 0)]) [[1]] [] none (1/2)
        NObjArg.inf none :=
  findMatches_no_templates (fun _ _ => ⟨[[0]]⟩) (fun _ _ => ⟨[[5]]⟩)
    (fun _ _ _ => []) (fun _ _ _ => [(0, 0)]) [[1]] none (1/2) NObjArg.inf none
    rfl rfl (Or.inl rfl)

/-- C8: the color plotDetections assigns to a detection is the palette
entry at templateIndex mod paletteSize — a pure function of the template
index and the palette length — so two detections with equal templateIndex
always receive the same color. -/
theorem plotColors_template_index :
    ∀ {C : Type} (palette : List C) (dflt : C) (ds : List BoundingBox),
      (∀ (i : ℕ) (d : BoundingBox), ds[i]? = some d →
        (plotColors palette dflt ds)[i]?
          = some (palette.getD (colorIndexOf d palette.length) dflt)) ∧
      (∀ d1 d2 : BoundingBox, d1.index = d2.index →
        palette.getD (colorIndexOf d1 palette.length) dflt
          = palette.getD (colorIndexOf d2 palette.length) dflt) ∧
      (∀ (d : BoundingBox) (nColors : ℕ), colorIndexOf d nColors = d.index % nColors) := by
  intro C palette dflt ds
  refine ⟨?_, ?_, fun d nColors => rfl⟩
  · intro i d hd
    simp [plotColors, List.getElem?_map, hd]
  · intro d1 d2 h
    simp [colorIndexOf, h]

/-- Witness for C8: a palette of two colors and one detection with
template index 3; the plotted color is the palette entry at 3 mod 2. -/
theorem plotColors_template_index_witness :
    (plotColors [10, 20] 99
        [{ x := 0, y := 0, width := 1, height := 1, score := 0, index := 3, label := "" }])[0]?
      = some 20 := by
  have h := (plotColors_template_index [10, 20] 99
      [{ x := 0, y := 0, width := 1, height := 1, score := 0, index := 3, label := "" }]).1 0
      { x := 0, y := 0, width := 1, height := 1, score := 0, index := 3, label := "" } rfl
  simpa [colorIndexOf] using h

end MTM
